import Mathlib

/-!
Shallow embedding of `src/index.js` of ziflex/disposable-decorator.

The whole library is one factory:

  const TEMPLATE = 'Object is disposed';
  module.exports = function create(name, fn) {
      if (name === 'constructor' || name === 'isDisposed') { return fn; }
      if (typeof fn !== 'function') { return fn; }
      return function disposableDecorator() {
          if (this.isDisposed()) { throw new TypeError(TEMPLATE); }
          return fn.apply(this, arguments);
      };
  };

Modelling choices:
* JavaScript values are `JSValue`; function and object values carry a
  numeric identity so reference equality (`===`) is equality of `JSValue`.
* `create` is the factory.  Allocating the closure `disposableDecorator`
  creates a fresh function object, so `create` receives the identity
  `fresh` that the runtime would assign to the new closure; the result is a
  `CreateResult` which records whether a wrapper was allocated and, for a
  wrapper, which inner value it closed over.
* The runtime behaviour of the wrapper is `disposableDecorator`.  The
  receiver (`this`) is a `Receiver σ`: an object identity plus the
  behaviour of its `isDisposed` member (`none` when the receiver exposes no
  callable `isDisposed`; calling a missing member in JavaScript raises the
  host TypeError "this.isDisposed is not a function").  Mutable state of the
  receiver is an explicit value of type `σ`, and the behaviour of every
  function object is given by an environment `FnEnv σ` mapping a function
  identity, the receiver identity, the state and the argument list to an
  outcome and a new state.  An invocation also returns the trace of calls
  it performed, so "the candidate is never invoked" is a statement about
  the trace.
-/

namespace Disposable

/-- Fixed error message of the guard (line 1 of the source). -/
def TEMPLATE : String := "Object is disposed"

/-- JavaScript values, with numeric identities on objects and functions so
that reference equality is decidable equality. -/
inductive JSValue : Type where
  | vUndefined : JSValue
  | vNull : JSValue
  | vBool : Bool → JSValue
  | vNum : Int → JSValue
  | vNaN : JSValue
  | vStr : String → JSValue
  | vObj : Nat → JSValue
  | vFun : Nat → JSValue
deriving DecidableEq, Repr

/-- JavaScript truthiness, as used by `if (this.isDisposed())`. -/
def truthy : JSValue → Bool
  | JSValue.vUndefined => false
  | JSValue.vNull => false
  | JSValue.vBool b => b
  | JSValue.vNum n => n != 0
  | JSValue.vNaN => false
  | JSValue.vStr s => s != ""
  | JSValue.vObj _ => true
  | JSValue.vFun _ => true

/-- The test `typeof fn === 'function'`. -/
def isCallable : JSValue → Bool
  | JSValue.vFun _ => true
  | _ => false

/-- Result of the factory: either the candidate passed through unchanged, or
a freshly allocated wrapper closure recording the inner value it captured. -/
inductive CreateResult : Type where
  | passthrough : JSValue → CreateResult
  | wrapper : Nat → JSValue → CreateResult
deriving DecidableEq, Repr

/-- The value the caller of `create` receives. -/
def CreateResult.toValue : CreateResult → JSValue
  | CreateResult.passthrough v => v
  | CreateResult.wrapper id _ => JSValue.vFun id

/-- The value a wrapper closed over, if a wrapper was allocated. -/
def CreateResult.inner : CreateResult → Option JSValue
  | CreateResult.passthrough _ => none
  | CreateResult.wrapper _ f => some f

/-- The factory `create(name, fn)` (lines 3-19 of the source).  `fresh` is
the identity the runtime assigns to the closure if one is allocated. -/
def create (name : String) (fn : JSValue) (fresh : Nat) : CreateResult :=
  if name = "constructor" ∨ name = "isDisposed" then
    CreateResult.passthrough fn
  else if isCallable fn = false then
    CreateResult.passthrough fn
  else
    CreateResult.wrapper fresh fn

/-- Errors a call can raise: a `TypeError` with its message, or an arbitrary
thrown value. -/
inductive JSError : Type where
  | typeError : String → JSError
  | thrown : JSValue → JSError
deriving DecidableEq, Repr

/-- Outcome of a call: normal return or a raised error. -/
inductive Outcome (α : Type) : Type where
  | ret : α → Outcome α
  | thr : JSError → Outcome α
deriving DecidableEq, Repr

/-- Whether an outcome is a raised error. -/
def Outcome.isThr {α : Type} : Outcome α → Bool
  | Outcome.ret _ => false
  | Outcome.thr _ => true

/-- Observable events of one wrapper invocation: a call of the receiver's
`isDisposed`, or a call of a function object (identity, receiver identity,
argument list). -/
inductive Event : Type where
  | callIsDisposed : Nat → Event
  | callFn : Nat → Nat → List JSValue → Event
deriving DecidableEq, Repr

/-- Whether an event is a call of a function object (a delegation). -/
def Event.isCallFn : Event → Bool
  | Event.callFn _ _ _ => true
  | _ => false

/-- Behaviour environment: function identity → receiver identity → state →
argument list → outcome and new state. -/
def FnEnv (σ : Type) : Type :=
  Nat → Nat → σ → List JSValue → Outcome JSValue × σ

/-- A receiver (`this`): its object identity and the behaviour of its
`isDisposed` member, `none` when no callable `isDisposed` is exposed. -/
structure Receiver (σ : Type) : Type where
  ref : Nat
  isDisposedMember : Option (σ → Outcome JSValue × σ)

/-- Runtime behaviour of the wrapper closure (lines 12-18 of the source):
call `this.isDisposed()`; on a truthy result throw `TypeError(TEMPLATE)`;
otherwise `fn.apply(this, arguments)`.  `fnId` is the identity of the
captured `fn`.  Returns the outcome, the final state and the trace of calls
performed.  A receiver without a callable `isDisposed` makes the member
call itself raise the host TypeError, before anything is invoked. -/
def disposableDecorator {σ : Type} (fnId : Nat) (env : FnEnv σ)
    (recv : Receiver σ) (s : σ) (args : List JSValue) :
    Outcome JSValue × σ × List Event :=
  match recv.isDisposedMember with
  | none =>
      (Outcome.thr (JSError.typeError "this.isDisposed is not a function"), s, [])
  | some isd =>
      match isd s with
      | (Outcome.thr e, s1) =>
          (Outcome.thr e, s1, [Event.callIsDisposed recv.ref])
      | (Outcome.ret v, s1) =>
          if truthy v then
            (Outcome.thr (JSError.typeError TEMPLATE), s1,
              [Event.callIsDisposed recv.ref])
          else
            let out := env fnId recv.ref s1 args
            (out.1, out.2,
              [Event.callIsDisposed recv.ref, Event.callFn fnId recv.ref args])

/-- Invoking the value returned by `create`: only a wrapper has the guard
behaviour; a passthrough is not a guard wrapper. -/
def invokeWrapper {σ : Type} (cr : CreateResult) (env : FnEnv σ)
    (recv : Receiver σ) (s : σ) (args : List JSValue) :
    Option (Outcome JSValue × σ × List Event) :=
  match cr with
  | CreateResult.wrapper _ (JSValue.vFun i) =>
      some (disposableDecorator i env recv s args)
  | _ => none

/-- Exception-aware run of the factory body: every path of the source body
of `create` is a plain `return`, no `throw` occurs in it (the only `throw`
of the file is inside the wrapper closure, executed only when the wrapper is
invoked). -/
def createRun (name : String) (fn : JSValue) (fresh : Nat) :
    Outcome CreateResult :=
  if name = "constructor" ∨ name = "isDisposed" then
    Outcome.ret (CreateResult.passthrough fn)
  else if isCallable fn = false then
    Outcome.ret (CreateResult.passthrough fn)
  else
    Outcome.ret (CreateResult.wrapper fresh fn)

/-! Concrete fixtures used by the witnesses: a receiver with state
`Bool × Int` (disposed flag, counter), whose `isDisposed` reads the flag;
a delegate that adds its argument to the counter; a receiver whose
`isDisposed` throws; a receiver without `isDisposed`; a throwing delegate. -/

/-- Fixture: `isDisposed` reading the disposed flag of a `Bool × Int` state. -/
def flagIsDisposed : Bool × Int → Outcome JSValue × (Bool × Int) :=
  fun s => (Outcome.ret (JSValue.vBool s.1), s)

/-- Fixture: receiver (identity 42) whose `isDisposed` reads the flag. -/
def counterRecv : Receiver (Bool × Int) :=
  { ref := 42, isDisposedMember := some flagIsDisposed }

/-- Fixture: delegate adding its numeric argument to the counter and
returning the new counter value. -/
def counterDelegate : FnEnv (Bool × Int) :=
  fun _ _ s args =>
    match args with
    | [JSValue.vNum n] => (Outcome.ret (JSValue.vNum (s.2 + n)), (s.1, s.2 + n))
    | _ => (Outcome.thr (JSError.typeError "bad arguments"), s)

/-- Fixture: delegate that always throws. -/
def throwingDelegate : FnEnv (Bool × Int) :=
  fun _ _ s _ => (Outcome.thr (JSError.thrown (JSValue.vStr "inner failure")), s)

/-- Fixture: an `isDisposed` that itself throws. -/
def throwingIsDisposed : Bool × Int → Outcome JSValue × (Bool × Int) :=
  fun s => (Outcome.thr (JSError.thrown (JSValue.vStr "boom")), s)

/-- Fixture: receiver (identity 9) whose `isDisposed` throws. -/
def throwRecv : Receiver (Bool × Int) :=
  { ref := 9, isDisposedMember := some throwingIsDisposed }

/-- Fixture: receiver (identity 7) exposing no callable `isDisposed`. -/
def bareRecv : Receiver (Bool × Int) :=
  { ref := 7, isDisposedMember := none }

/-- C3: on a reserved name (`constructor` or `isDisposed`), `create` returns
exactly the candidate, whatever its type, and a repeated `create` on such a
name still returns the identical original value. -/
theorem create_reserved_identity (name : String) (fn : JSValue) (f1 f2 : Nat)
    (h : name = "constructor" ∨ name = "isDisposed") :
    create name fn f1 = CreateResult.passthrough fn ∧
    (create name fn f1).toValue = fn ∧
    create name ((create name fn f1).toValue) f2 =
      CreateResult.passthrough fn := by
  rcases h with h | h <;> subst h <;>
    simp [create, CreateResult.toValue]

/-- Witness for C3 at the reserved name `isDisposed` and a numeric
candidate. -/
theorem create_reserved_identity_witness :
    create "isDisposed" (JSValue.vNum 7) 0 =
      CreateResult.passthrough (JSValue.vNum 7) ∧
    (create "isDisposed" (JSValue.vNum 7) 0).toValue = JSValue.vNum 7 ∧
    create "isDisposed" ((create "isDisposed" (JSValue.vNum 7) 0).toValue) 1 =
      CreateResult.passthrough (JSValue.vNum 7) :=
  create_reserved_identity "isDisposed" (JSValue.vNum 7) 0 1 (Or.inr rfl)

/-- C4: a non-callable candidate under a non-reserved name passes through
unchanged, no wrapper is allocated. -/
theorem create_noncallable_identity (name : String) (fn : JSValue)
    (fresh : Nat) (h1 : name ≠ "constructor") (h2 : name ≠ "isDisposed")
    (h3 : isCallable fn = false) :
    create name fn fresh = CreateResult.passthrough fn := by
  simp [create, h1, h2, h3]

/-- Witness for C4: the string property `label` passes through unchanged. -/
theorem create_noncallable_identity_witness :
    create "label" (JSValue.vStr "hello") 5 =
      CreateResult.passthrough (JSValue.vStr "hello") :=
  create_noncallable_identity "label" (JSValue.vStr "hello") 5
    (by decide) (by decide) rfl

/-- C5: a callable candidate under a non-reserved name yields a wrapper: a
callable distinct from the candidate; two calls of `create` on the same
function yield two distinct wrappers, both closing over the same inner
function and with the same invocation behaviour. -/
theorem create_fresh_wrapper {σ : Type} (name : String) (i f1 f2 : Nat)
    (env : FnEnv σ) (recv : Receiver σ) (s : σ) (args : List JSValue)
    (h1 : name ≠ "constructor") (h2 : name ≠ "isDisposed")
    (hf1 : f1 ≠ i) (hf2 : f2 ≠ i) (hff : f1 ≠ f2) :
    isCallable ((create name (JSValue.vFun i) f1).toValue) = true ∧
    (create name (JSValue.vFun i) f1).toValue ≠ JSValue.vFun i ∧
    (create name (JSValue.vFun i) f2).toValue ≠ JSValue.vFun i ∧
    (create name (JSValue.vFun i) f1).toValue ≠
      (create name (JSValue.vFun i) f2).toValue ∧
    (create name (JSValue.vFun i) f1).inner = some (JSValue.vFun i) ∧
    (create name (JSValue.vFun i) f2).inner = some (JSValue.vFun i) ∧
    invokeWrapper (create name (JSValue.vFun i) f1) env recv s args =
      invokeWrapper (create name (JSValue.vFun i) f2) env recv s args := by
  have hc1 : create name (JSValue.vFun i) f1 =
      CreateResult.wrapper f1 (JSValue.vFun i) := by
    simp [create, h1, h2, isCallable]
  have hc2 : create name (JSValue.vFun i) f2 =
      CreateResult.wrapper f2 (JSValue.vFun i) := by
    simp [create, h1, h2, isCallable]
  rw [hc1, hc2]
  refine ⟨rfl, ?_, ?_, ?_, rfl, rfl, rfl⟩
  · simp [CreateResult.toValue, hf1]
  · simp [CreateResult.toValue, hf2]
  · simp [CreateResult.toValue, hff]

/-- Witness for C5 at a concrete candidate and two fresh identities. -/
theorem create_fresh_wrapper_witness :
    isCallable ((create "increment" (JSValue.vFun 3) 10).toValue) = true ∧
    (create "increment" (JSValue.vFun 3) 10).toValue ≠ JSValue.vFun 3 ∧
    (create "increment" (JSValue.vFun 3) 11).toValue ≠ JSValue.vFun 3 ∧
    (create "increment" (JSValue.vFun 3) 10).toValue ≠
      (create "increment" (JSValue.vFun 3) 11).toValue ∧
    (create "increment" (JSValue.vFun 3) 10).inner = some (JSValue.vFun 3) ∧
    (create "increment" (JSValue.vFun 3) 11).inner = some (JSValue.vFun 3) ∧
    invokeWrapper (create "increment" (JSValue.vFun 3) 10) counterDelegate
        counterRecv (false, 5) [JSValue.vNum 5] =
      invokeWrapper (create "increment" (JSValue.vFun 3) 11) counterDelegate
        counterRecv (false, 5) [JSValue.vNum 5] :=
  create_fresh_wrapper "increment" 3 10 11 counterDelegate counterRecv
    (false, 5) [JSValue.vNum 5] (by decide) (by decide)
    (by decide) (by decide) (by decide)

/-- C1: a callable wrapped under a non-reserved name yields a guard wrapper,
and invoking it on a receiver whose `isDisposed` returns a truthy value
throws `TypeError` with the fixed message "Object is disposed"; the trace
holds only the `isDisposed` call, so the candidate is never invoked. -/
theorem guard_throws_on_disposed {σ : Type} (name : String) (i fresh : Nat)
    (env : FnEnv σ) (recv : Receiver σ) (isd : σ → Outcome JSValue × σ)
    (s s1 : σ) (v : JSValue) (args : List JSValue)
    (h1 : name ≠ "constructor") (h2 : name ≠ "isDisposed")
    (hmem : recv.isDisposedMember = some isd)
    (hisd : isd s = (Outcome.ret v, s1))
    (htr : truthy v = true) :
    invokeWrapper (create name (JSValue.vFun i) fresh) env recv s args =
      some (Outcome.thr (JSError.typeError TEMPLATE), s1,
        [Event.callIsDisposed recv.ref]) := by
  have hc : create name (JSValue.vFun i) fresh =
      CreateResult.wrapper fresh (JSValue.vFun i) := by
    simp [create, h1, h2, isCallable]
  rw [hc]
  simp only [invokeWrapper, disposableDecorator, hmem, hisd, htr]
  simp

/-- Witness for C1: the disposed counter receiver at state (true, 5). -/
theorem guard_throws_on_disposed_witness :
    invokeWrapper (create "increment" (JSValue.vFun 3) 10) counterDelegate
        counterRecv (true, 5) [JSValue.vNum 5] =
      some (Outcome.thr (JSError.typeError TEMPLATE), ((true : Bool), (5 : Int)),
        [Event.callIsDisposed 42]) :=
  guard_throws_on_disposed "increment" 3 10 counterDelegate counterRecv
    flagIsDisposed (true, 5) (true, 5) (JSValue.vBool true) [JSValue.vNum 5]
    (by decide) (by decide) rfl rfl rfl

/-- C2: on a receiver whose `isDisposed` returns a falsy value, the guard
wrapper invokes the original candidate (function identity `i`) with the
same receiver and the same argument list, and returns its outcome and state
unchanged. -/
theorem guard_delegates_when_live {σ : Type} (name : String) (i fresh : Nat)
    (env : FnEnv σ) (recv : Receiver σ) (isd : σ → Outcome JSValue × σ)
    (s s1 : σ) (v : JSValue) (args : List JSValue)
    (h1 : name ≠ "constructor") (h2 : name ≠ "isDisposed")
    (hmem : recv.isDisposedMember = some isd)
    (hisd : isd s = (Outcome.ret v, s1))
    (htr : truthy v = false) :
    invokeWrapper (create name (JSValue.vFun i) fresh) env recv s args =
      some ((env i recv.ref s1 args).1, (env i recv.ref s1 args).2,
        [Event.callIsDisposed recv.ref, Event.callFn i recv.ref args]) := by
  have hc : create name (JSValue.vFun i) fresh =
      CreateResult.wrapper fresh (JSValue.vFun i) := by
    simp [create, h1, h2, isCallable]
  rw [hc]
  simp only [invokeWrapper, disposableDecorator, hmem, hisd, htr]
  simp

/-- Witness for C2: the live counter receiver at state (false, 5), argument
5: the counter becomes 10 and the delegate result 10 is returned. -/
theorem guard_delegates_when_live_witness :
    invokeWrapper (create "increment" (JSValue.vFun 3) 10) counterDelegate
        counterRecv (false, 5) [JSValue.vNum 5] =
      some (Outcome.ret (JSValue.vNum 10), ((false : Bool), (10 : Int)),
        [Event.callIsDisposed 42, Event.callFn 3 42 [JSValue.vNum 5]]) :=
  guard_delegates_when_live "increment" 3 10 counterDelegate counterRecv
    flagIsDisposed (false, 5) (false, 5) (JSValue.vBool false)
    [JSValue.vNum 5] (by decide) (by decide) rfl rfl rfl

/-- C6: an error the delegate raises propagates through the guard wrapper
unchanged: the invocation outcome is exactly the delegate's thrown error,
with the delegate's final state. -/
theorem guard_propagates_delegate_error {σ : Type} (name : String)
    (i fresh : Nat) (env : FnEnv σ) (recv : Receiver σ)
    (isd : σ → Outcome JSValue × σ) (s s1 s2 : σ) (v : JSValue)
    (e : JSError) (args : List JSValue)
    (h1 : name ≠ "constructor") (h2 : name ≠ "isDisposed")
    (hmem : recv.isDisposedMember = some isd)
    (hisd : isd s = (Outcome.ret v, s1))
    (htr : truthy v = false)
    (hdel : env i recv.ref s1 args = (Outcome.thr e, s2)) :
    invokeWrapper (create name (JSValue.vFun i) fresh) env recv s args =
      some (Outcome.thr e, s2,
        [Event.callIsDisposed recv.ref, Event.callFn i recv.ref args]) := by
  have hc : create name (JSValue.vFun i) fresh =
      CreateResult.wrapper fresh (JSValue.vFun i) := by
    simp [create, h1, h2, isCallable]
  rw [hc]
  simp only [invokeWrapper, disposableDecorator, hmem, hisd, htr, hdel]
  simp

/-- Witness for C6: a throwing delegate on the live counter receiver; the
thrown value "inner failure" surfaces unchanged. -/
theorem guard_propagates_delegate_error_witness :
    invokeWrapper (create "increment" (JSValue.vFun 3) 10) throwingDelegate
        counterRecv (false, 5) [JSValue.vNum 5] =
      some (Outcome.thr (JSError.thrown (JSValue.vStr "inner failure")),
        ((false : Bool), (5 : Int)),
        [Event.callIsDisposed 42, Event.callFn 3 42 [JSValue.vNum 5]]) :=
  guard_propagates_delegate_error "increment" 3 10 throwingDelegate
    counterRecv flagIsDisposed (false, 5) (false, 5) (false, 5)
    (JSValue.vBool false) (JSError.thrown (JSValue.vStr "inner failure"))
    [JSValue.vNum 5] (by decide) (by decide) rfl rfl rfl rfl

/-- C7: an invocation of the guard wrapper is atomic: either it fails (the
outcome is a raised error), no delegation event is in the trace, and the
final state is whatever the `isDisposed` call left; or the delegate is
invoked and its outcome and state are returned in full.  In particular, on
a disposed receiver whose `isDisposed` is a pure read, the state (for
instance an internal counter) is unchanged by the failed call. -/
theorem guard_no_partial_failure {σ : Type} (i : Nat) (env : FnEnv σ)
    (recv : Receiver σ) (isd : σ → Outcome JSValue × σ) (s : σ)
    (args : List JSValue) (r : Outcome JSValue) (s' : σ) (tr : List Event)
    (hmem : recv.isDisposedMember = some isd)
    (hrun : disposableDecorator i env recv s args = (r, s', tr)) :
    (Outcome.isThr r = true ∧
      tr.all (fun ev => !(Event.isCallFn ev)) = true ∧ s' = (isd s).2) ∨
    (tr = [Event.callIsDisposed recv.ref, Event.callFn i recv.ref args] ∧
      (r, s') = env i recv.ref (isd s).2 args) := by
  simp only [disposableDecorator, hmem] at hrun
  rcases h1 : isd s with ⟨o, s1⟩
  rw [h1] at hrun
  cases o with
  | thr e =>
    simp only [Prod.mk.injEq] at hrun
    obtain ⟨hr, hs, ht⟩ := hrun
    subst hr
    subst hs
    subst ht
    left
    exact ⟨rfl, by simp [Event.isCallFn], rfl⟩
  | ret v =>
    by_cases htr : truthy v = true
    · simp only [htr, if_true, Prod.mk.injEq] at hrun
      obtain ⟨hr, hs, ht⟩ := hrun
      subst hr
      subst hs
      subst ht
      left
      exact ⟨rfl, by simp [Event.isCallFn], rfl⟩
    · simp only [htr, if_false, Bool.false_eq_true, Prod.mk.injEq] at hrun
      obtain ⟨hr, hs, ht⟩ := hrun
      subst hr
      subst hs
      subst ht
      right
      exact ⟨rfl, rfl⟩

/-- Witness for C7: the disposed counter receiver at state (true, 5): the
call fails, the trace holds no delegation, and the counter is unchanged. -/
theorem guard_no_partial_failure_witness :
    (Outcome.isThr (Outcome.thr (JSError.typeError TEMPLATE) : Outcome JSValue) = true ∧
      List.all [Event.callIsDisposed 42] (fun ev => !(Event.isCallFn ev)) = true ∧
      ((true : Bool), (5 : Int)) = (flagIsDisposed (true, 5)).2) ∨
    (([Event.callIsDisposed 42] : List Event) =
        [Event.callIsDisposed counterRecv.ref,
          Event.callFn 3 counterRecv.ref [JSValue.vNum 5]] ∧
      (Outcome.thr (JSError.typeError TEMPLATE), ((true : Bool), (5 : Int))) =
        counterDelegate 3 counterRecv.ref (flagIsDisposed (true, 5)).2
          [JSValue.vNum 5]) :=
  guard_no_partial_failure 3 counterDelegate counterRecv flagIsDisposed
    (true, 5) [JSValue.vNum 5] (Outcome.thr (JSError.typeError TEMPLATE))
    (true, 5) [Event.callIsDisposed 42] rfl rfl

/-- C9: on a receiver exposing no callable `isDisposed`, the guard wrapper
fails with the host's own missing-member invocation TypeError, untouched:
the outcome is exactly that host error, the state is unchanged and nothing
was invoked. -/
theorem guard_missing_predicate_error {σ : Type} (name : String)
    (i fresh : Nat) (env : FnEnv σ) (recv : Receiver σ) (s : σ)
    (args : List JSValue)
    (h1 : name ≠ "constructor") (h2 : name ≠ "isDisposed")
    (hmem : recv.isDisposedMember = none) :
    invokeWrapper (create name (JSValue.vFun i) fresh) env recv s args =
      some (Outcome.thr (JSError.typeError "this.isDisposed is not a function"),
        s, ([] : List Event)) := by
  have hc : create name (JSValue.vFun i) fresh =
      CreateResult.wrapper fresh (JSValue.vFun i) := by
    simp [create, h1, h2, isCallable]
  rw [hc]
  simp only [invokeWrapper, disposableDecorator, hmem]

/-- Witness for C9: the receiver without `isDisposed`. -/
theorem guard_missing_predicate_error_witness :
    invokeWrapper (create "increment" (JSValue.vFun 3) 10) counterDelegate
        bareRecv (false, 5) [JSValue.vNum 5] =
      some (Outcome.thr (JSError.typeError "this.isDisposed is not a function"),
        ((false : Bool), (5 : Int)), ([] : List Event)) :=
  guard_missing_predicate_error "increment" 3 10 counterDelegate bareRecv
    (false, 5) [JSValue.vNum 5] (by decide) (by decide) rfl

/-- C10: on a receiver with a callable `isDisposed`, every wrapper
invocation calls `isDisposed` exactly once, before any delegation (the
trace is either just the `isDisposed` call or that call followed by the one
delegation); and if `isDisposed` itself throws, its error propagates
unchanged and the candidate is never invoked. -/
theorem guard_disposal_checked_once {σ : Type} (i : Nat) (env : FnEnv σ)
    (recv : Receiver σ) (isd : σ → Outcome JSValue × σ) (s : σ)
    (args : List JSValue) (e : JSError) (s1 : σ)
    (hmem : recv.isDisposedMember = some isd) :
    ((disposableDecorator i env recv s args).2.2 =
        [Event.callIsDisposed recv.ref] ∨
      (disposableDecorator i env recv s args).2.2 =
        [Event.callIsDisposed recv.ref, Event.callFn i recv.ref args]) ∧
    (isd s = (Outcome.thr e, s1) →
      disposableDecorator i env recv s args =
        (Outcome.thr e, s1, [Event.callIsDisposed recv.ref])) := by
  constructor
  · simp only [disposableDecorator, hmem]
    rcases h1 : isd s with ⟨o, s2⟩
    cases o with
    | thr e2 => simp
    | ret v => by_cases htr : truthy v = true <;> simp [htr]
  · intro hthrow
    simp only [disposableDecorator, hmem, hthrow]

/-- Witness for C10: the receiver whose `isDisposed` throws "boom": the
trace is the single `isDisposed` call and the thrown value surfaces
unchanged. -/
theorem guard_disposal_checked_once_witness :
    ((disposableDecorator 3 counterDelegate throwRecv (true, 5)
          [JSValue.vNum 5]).2.2 = [Event.callIsDisposed throwRecv.ref] ∨
      (disposableDecorator 3 counterDelegate throwRecv (true, 5)
          [JSValue.vNum 5]).2.2 =
        [Event.callIsDisposed throwRecv.ref,
          Event.callFn 3 throwRecv.ref [JSValue.vNum 5]]) ∧
    (throwingIsDisposed (true, 5) =
        (Outcome.thr (JSError.thrown (JSValue.vStr "boom")),
          ((true : Bool), (5 : Int))) →
      disposableDecorator 3 counterDelegate throwRecv (true, 5)
          [JSValue.vNum 5] =
        (Outcome.thr (JSError.thrown (JSValue.vStr "boom")),
          ((true : Bool), (5 : Int)), [Event.callIsDisposed throwRecv.ref])) :=
  guard_disposal_checked_once 3 counterDelegate throwRecv throwingIsDisposed
    (true, 5) [JSValue.vNum 5] (JSError.thrown (JSValue.vStr "boom"))
    (true, 5) rfl

/-- C8: the factory is a total function with no error path of its own: the
exception-aware run of its body always returns normally, with the value
`create` describes; the disposed error lives only inside the wrapper
closure. -/
theorem create_total (name : String) (fn : JSValue) (fresh : Nat) :
    createRun name fn fresh = Outcome.ret (create name fn fresh) := by
  unfold createRun create
  split
  · rfl
  · split <;> rfl

end Disposable
